import Mathlib

/-!
Shallow embedding of the order placement and pricing pipeline of the
flower-hub backend (src/src/services/order.service.ts together with the
pricing helpers `calculateTax` / `calculateShipping` and the order-number
helpers in src/src/utils).  The database accessed through the ORM client is
modelled as an explicit `State` record threaded through every operation;
each service method returns `Except Err α × State`, the second component
being the store contents after all writes the method performed before
returning or throwing.  Money values are embedded as exact rationals (ℚ);
nullable columns are `Option` values.  JavaScript truthiness of the
nullable coupon fields follows their runtime types: `minimumAmount` and
`maximumDiscount` are Decimal money columns (the `.toNumber()` call in
validateCoupon shows the ORM returns decimal.js objects), and an object is
truthy whenever the column is non-null, including a stored 0; `usageLimit`
is an Int column, a plain JavaScript number, falsy at 0.
-/

namespace FlowerHub

/-- Errors surfaced by the order service: the `AppError` throws of
order.service.ts, plus `recordNotFound`, the ORM client's failure when an
`update` names a row that does not exist (the coupon/product `update` calls
perform no existence check of their own). -/
inductive Err where
  | productNotFound (productId : String)
  | insufficientStock (name : String)
  | orderNotFound
  | alreadyCancelled
  | cannotCancelDelivered
  | recordNotFound
  deriving Repr, DecidableEq

/-- `type` field of a coupon: `'percentage' | 'fixed'`. -/
inductive CouponType where
  | percentage
  | fixed
  deriving Repr, DecidableEq

/-- Catalog product row: the fields the order pipeline reads and writes. -/
structure Product where
  id : String
  name : String
  price : ℚ
  stockCount : ℤ
  inStock : Bool
  deriving Repr, DecidableEq

/-- Coupon row (src/src/types/order.types.ts).  Timestamps are integers. -/
structure Coupon where
  code : String
  ctype : CouponType
  value : ℚ
  minimumAmount : Option ℚ
  maximumDiscount : Option ℚ
  usageLimit : Option ℕ
  usedCount : ℕ
  isActive : Bool
  validFrom : ℤ
  validUntil : ℤ
  deriving Repr, DecidableEq

/-- Order status enum (lower-cased from the Prisma enum values). -/
inductive OrderStatus where
  | pending
  | confirmed
  | processing
  | shipped
  | delivered
  | cancelled
  | refunded
  deriving Repr, DecidableEq

/-- Persisted order item: product reference, quantity, frozen unit price. -/
structure OrderItem where
  productId : String
  quantity : ℕ
  price : ℚ
  deriving Repr, DecidableEq

/-- Address snapshot row; only the fields the pipeline itself sets are
kept, the copied payload is opaque here. -/
structure Address where
  userId : String
  atype : String
  deriving Repr, DecidableEq

/-- Order row with the fields the claims are about. -/
structure Order where
  id : ℕ
  userId : String
  items : List OrderItem
  subtotal : ℚ
  shipping : ℚ
  tax : ℚ
  discount : ℚ
  total : ℚ
  status : OrderStatus
  trackingNumber : Option String
  estimatedDelivery : Option ℤ
  notes : Option String
  deriving Repr, DecidableEq

/-- One line item of a CreateOrderRequest; route validation enforces
`quantity` is an integer ≥ 1, embedded as ℕ. -/
structure ReqItem where
  productId : String
  quantity : ℕ
  deriving Repr, DecidableEq

/-- CreateOrderRequest (src/src/types/order.types.ts); the address payloads
are irrelevant to the claims and omitted. -/
structure CreateOrderRequest where
  items : List ReqItem
  notes : Option String
  couponCode : Option String
  deriving Repr, DecidableEq

/-- UpdateOrderRequest: the admin patch for updateOrder. -/
structure UpdateOrderRequest where
  status : Option OrderStatus
  trackingNumber : Option String
  estimatedDelivery : Option ℤ
  notes : Option String
  deriving Repr, DecidableEq

/-- The database contents the order pipeline touches. -/
structure State where
  products : List Product
  coupons : List Coupon
  orders : List Order
  addresses : List Address
  deriving Repr, DecidableEq

/-! ### Pricing helpers (src/src/utils, concatenated helpers file) -/

/-- JavaScript `Math.round x = ⌊x + 0.5⌋`. -/
def jsRound (x : ℚ) : ℤ := ⌊x + 1/2⌋

/-- `calculateTax`: `Math.round(amount * taxRate * 100) / 100` with the
default `taxRate = 0.08`. -/
def calculateTax (amount : ℚ) : ℚ := (jsRound (amount * (8/100) * 100) : ℚ) / 100

/-- `calculateShipping`: free at and over 50, 5.99 at and over 25, else 9.99. -/
def calculateShipping (amount : ℚ) : ℚ :=
  if amount ≥ 50 then 0 else if amount ≥ 25 then 599/100 else 999/100

/-! ### Coupon validation (order.service.ts lines 550-581) -/

/-- JavaScript truthiness of a nullable Decimal money column
(`minimumAmount`, `maximumDiscount`): the ORM materialises these as
decimal.js objects — the `.toNumber()` call in validateCoupon proves it —
and an object is truthy whenever the column is non-null, a stored 0
included. -/
def truthyDec : Option ℚ → Bool
  | none => false
  | some _ => true

/-- JavaScript truthiness of the nullable Int column `usageLimit`: a plain
number, falsy at 0. -/
def truthyN : Option ℕ → Bool
  | none => false
  | some n => n != 0

/-- ASCII upper-casing of one character, the effect of JavaScript
`toUpperCase` on the characters coupon codes are made of. -/
def upperChar (c : Char) : Char :=
  if 'a' ≤ c ∧ c ≤ 'z' then Char.ofNat (c.toNat - 32) else c

/-- `code.toUpperCase()`. -/
def upper (s : String) : String := ⟨s.data.map upperChar⟩

/-- `prisma.coupon.findUnique({ where: { code } })`. -/
def findCoupon (s : State) (code : String) : Option Coupon :=
  s.coupons.find? (fun c => c.code == code)

/-- The guard `!(coupon.minimumAmount && amount < coupon.minimumAmount)`
of validateCoupon line 571. -/
def minimumOk (c : Coupon) (amount : ℚ) : Bool :=
  !(truthyDec c.minimumAmount && decide (amount < c.minimumAmount.getD 0))

/-- The guard `!(coupon.usageLimit && coupon.usedCount >= coupon.usageLimit)`
of validateCoupon line 576. -/
def usageOk (c : Coupon) : Bool :=
  !(truthyN c.usageLimit && decide (c.usageLimit.getD 0 ≤ c.usedCount))

/-- `validateCoupon(code, amount)`: case-insensitive lookup by uppercased
code, then the active / date-window / minimum-amount / usage-limit checks,
any failure returning `none` rather than an error. -/
def validateCoupon (s : State) (now : ℤ) (code : String) (amount : ℚ) : Option Coupon :=
  match findCoupon s (upper code) with
  | none => none
  | some c =>
    if !c.isActive then none
    else if now < c.validFrom || c.validUntil < now then none
    else if !minimumOk c amount then none
    else if !usageOk c then none
    else some c

/-- Discount applied in createOrder lines 246-254: percentage coupons give
`subtotal * value / 100`, `Math.min`-capped whenever `maximumDiscount` is
present (a Decimal object is truthy even at 0, so a present zero cap clamps
the discount to 0); fixed coupons give `value` directly. -/
def discountFor (c : Coupon) (subtotal : ℚ) : ℚ :=
  match c.ctype with
  | .percentage =>
    let d := subtotal * c.value / 100
    if truthyDec c.maximumDiscount then min d (c.maximumDiscount.getD 0) else d
  | .fixed => c.value

/-! ### createOrder (order.service.ts lines 184-329) -/

/-- The product validation loop of createOrder lines 212-235: look up every
requested product, fail with `productNotFound` / `insufficientStock`
(`!product.inStock || product.stockCount < item.quantity`), and accumulate
the subtotal and the order items with frozen unit prices. -/
def validateItems (s : State) : List ReqItem → Except Err (ℚ × List OrderItem)
  | [] => .ok (0, [])
  | item :: rest =>
    match s.products.find? (fun p => p.id == item.productId) with
    | none => .error (.productNotFound item.productId)
    | some p =>
      if !p.inStock || p.stockCount < (item.quantity : ℤ) then
        .error (.insufficientStock p.name)
      else
        match validateItems s rest with
        | .error e => .error e
        | .ok (sub, its) =>
          .ok (p.price * item.quantity + sub,
               { productId := item.productId, quantity := item.quantity, price := p.price } :: its)

/-- One `prisma.product.update` applying a relative stock delta; fails
(`recordNotFound`) when no product row has the given id. -/
def updateProductStock (ps : List Product) (pid : String) (delta : ℤ) :
    Option (List Product) :=
  if ps.any (fun p => p.id == pid) then
    some (ps.map fun p => if p.id == pid then { p with stockCount := p.stockCount + delta } else p)
  else none

/-- The sequential stock-mutation loops of createOrder lines 303-312 and
cancelOrder lines 395-404: apply each delta in turn, aborting with the
partial writes kept when an update names a missing product. -/
def stockLoop : List (String × ℤ) → List Product → Option Err × List Product
  | [], ps => (none, ps)
  | (pid, d) :: rest, ps =>
    match updateProductStock ps pid d with
    | none => (some .recordNotFound, ps)
    | some ps' => stockLoop rest ps'

/-- `createOrder(userId, data)`: persist the two address snapshots, run the
product validation loop, price the order (shipping, tax, coupon discount),
persist the order row with its items, decrement stock, and finally run
`prisma.coupon.update` on the *raw* request code whenever `couponCode` was
given at all — the source guard is `if (couponCode)`, and the update throws
`recordNotFound` when no coupon row carries that exact code. -/
def createOrder (s : State) (now : ℤ) (userId : String) (req : CreateOrderRequest) :
    Except Err Order × State :=
  let s1 : State :=
    { s with addresses := s.addresses ++ [⟨userId, "SHIPPING"⟩, ⟨userId, "BILLING"⟩] }
  match validateItems s1 req.items with
  | .error e => (.error e, s1)
  | .ok (subtotal, orderItems) =>
    let shipping := calculateShipping subtotal
    let tax := calculateTax (subtotal + shipping)
    let discount :=
      match req.couponCode with
      | none => 0
      | some code =>
        match validateCoupon s1 now code subtotal with
        | none => 0
        | some c => discountFor c subtotal
    let total := subtotal + shipping + tax - discount
    let order : Order :=
      { id := s1.orders.length, userId := userId, items := orderItems,
        subtotal := subtotal, shipping := shipping, tax := tax,
        discount := discount, total := total, status := .pending,
        trackingNumber := none, estimatedDelivery := none, notes := req.notes }
    let s2 : State := { s1 with orders := s1.orders ++ [order] }
    match stockLoop (req.items.map fun it => (it.productId, -(it.quantity : ℤ))) s2.products with
    | (some e, ps) => (.error e, { s2 with products := ps })
    | (none, ps) =>
      let s3 : State := { s2 with products := ps }
      match req.couponCode with
      | none => (.ok order, s3)
      | some code =>
        if s3.coupons.any (fun c => c.code == code) then
          (.ok order,
           { s3 with coupons := s3.coupons.map fun c =>
               if c.code == code then { c with usedCount := c.usedCount + 1 } else c })
        else (.error .recordNotFound, s3)

/-! ### updateOrder (order.service.ts lines 332-370) -/

/-- Apply an admin patch to an order row: present fields overwrite, absent
fields are left unchanged. -/
def applyPatch (o : Order) (d : UpdateOrderRequest) : Order :=
  { o with
    status := d.status.getD o.status,
    trackingNumber := match d.trackingNumber with | none => o.trackingNumber | some t => some t,
    estimatedDelivery := match d.estimatedDelivery with | none => o.estimatedDelivery | some t => some t,
    notes := match d.notes with | none => o.notes | some t => some t }

/-- `updateOrder(orderId, data)`: look the order up (404 when absent), then
write the patch; no product or coupon row is touched. -/
def updateOrder (s : State) (orderId : ℕ) (d : UpdateOrderRequest) :
    Except Err Order × State :=
  match s.orders.find? (fun o => o.id == orderId) with
  | none => (.error .orderNotFound, s)
  | some o =>
    (.ok (applyPatch o d),
     { s with orders := s.orders.map fun x => if x.id == orderId then applyPatch x d else x })

/-! ### cancelOrder (order.service.ts lines 373-435) -/

/-- `cancelOrder(userId, orderId)`: ownership-scoped lookup, the
already-cancelled and delivered guards, then the stock restoration loop
(one increment per order item) and the status write. -/
def cancelOrder (s : State) (userId : String) (orderId : ℕ) :
    Except Err Order × State :=
  match s.orders.find? (fun o => o.id == orderId && o.userId == userId) with
  | none => (.error .orderNotFound, s)
  | some o =>
    if o.status = .cancelled then (.error .alreadyCancelled, s)
    else if o.status = .delivered then (.error .cannotCancelDelivered, s)
    else
      match stockLoop (o.items.map fun it => (it.productId, (it.quantity : ℤ))) s.products with
      | (some e, ps) => (.error e, { s with products := ps })
      | (none, ps) =>
        (.ok { o with status := .cancelled },
         { s with
             products := ps,
             orders := s.orders.map fun x =>
               if x.id == orderId then { x with status := .cancelled } else x })

/-! ### Derived notions used in theorem statements -/

/-- The state after createOrder's first step, the two address-snapshot
creations of lines 191-206. -/
def addrState (s : State) (uid : String) : State :=
  { s with addresses := s.addresses ++ [⟨uid, "SHIPPING"⟩, ⟨uid, "BILLING"⟩] }

/-- Product list after createOrder's stock-decrement loop: every product's
stockCount drops by the total quantity the request's line items ask of it. -/
def decrementedProducts (ps : List Product) (items : List ReqItem) : List Product :=
  ps.map fun p =>
    { p with stockCount := p.stockCount -
        ((items.filter fun it => it.productId == p.id).map fun it => (it.quantity : ℤ)).sum }

/-- Product list after cancelOrder's restoration loop: every product's
stockCount grows by the total quantity of the order items naming it. -/
def restoredProducts (ps : List Product) (items : List OrderItem) : List Product :=
  ps.map fun p =>
    { p with stockCount := p.stockCount +
        ((items.filter fun it => it.productId == p.id).map fun it => (it.quantity : ℤ)).sum }

/-- Spec-side applicability predicate for a coupon already looked up: active,
inside the inclusive validity window, order amount at least the minimum
whenever one is present (the Decimal column is truthy even at a stored 0,
so "set" means non-null and a zero minimum enforces amount ≥ 0), and used
count below the usage limit when a nonzero one is set (the Int column is a
plain number, so a zero limit counts as no limit). -/
def couponApplicable (now : ℤ) (amount : ℚ) (c : Coupon) : Prop :=
  c.isActive = true ∧ c.validFrom ≤ now ∧ now ≤ c.validUntil ∧
  (∀ m ∈ c.minimumAmount, m ≤ amount) ∧
  (∀ l ∈ c.usageLimit, l ≠ 0 → c.usedCount < l)

/-- Half-up rounding to two decimal places, the spec's `round2`. -/
def roundHalfUp2 (x : ℚ) : ℚ := (⌊x * 100 + 1/2⌋ : ℚ) / 100

/-! ### Concrete fixtures for witnesses and counterexamples -/

/-- A product with three units in stock, used to exhibit duplicate-line-item
behaviour. -/
def tulipP : Product := ⟨"p1", "Tulip", 1, 3, true⟩

/-- The worked example's product: unit price 25, ample stock. -/
def roseP : Product := ⟨"p1", "Rose", 25, 5, true⟩

/-- A ten-dollar product used by the coupon scenarios. -/
def lilyP : Product := ⟨"p1", "Lily", 10, 5, true⟩

/-- The spec's WELCOME10 example coupon: 10 percent off a minimum of 25. -/
def welcome10 : Coupon := ⟨"WELCOME10", .percentage, 10, some 25, none, some 1000, 0, true, 0, 100⟩

/-- The spec's SAVE20 example coupon: 20 off orders of at least 100. -/
def save20 : Coupon := ⟨"SAVE20", .fixed, 20, some 100, none, some 500, 0, true, 0, 100⟩

/-- A fixed coupon whose value dwarfs any small order. -/
def big100 : Coupon := ⟨"BIG100", .fixed, 100, none, none, none, 0, true, 0, 100⟩

/-- A coupon whose optional numeric fields are all present but zero. -/
def zeroC : Coupon := ⟨"Z", .percentage, 10, some 0, some 0, some 0, 999, true, 0, 100⟩

/-- The order produced by buying two tulips in one line item. -/
def c1wOrder : Order := ⟨0, "u", [⟨"p1", 2, 1⟩], 2, 999/100, 96/100, 0, 1295/100, .pending, none, none, none⟩

/-- The store after that purchase. -/
def c1wState : State :=
  ⟨[⟨"p1", "Tulip", 1, 1, true⟩], [], [c1wOrder], [⟨"u", "SHIPPING"⟩, ⟨"u", "BILLING"⟩]⟩

/-- A pending order of two lilies, cancellable by its owner. -/
def c7Order : Order :=
  ⟨5, "u", [⟨"p1", 2, 10⟩], 20, 599/100, 208/100, 0, 2807/100, .pending, none, none, none⟩

/-- A store holding that single pending order. -/
def c7State : State := ⟨[lilyP], [], [c7Order], []⟩

/-- The order of the spec's worked example: subtotal 25 with WELCOME10. -/
def exampleOrder : Order :=
  ⟨0, "u", [⟨"p1", 1, 25⟩], 25, 599/100, 248/100, 5/2, 3097/100, .pending, none, none, none⟩

/-- The store after the worked example's order. -/
def exampleState : State :=
  ⟨[⟨"p1", "Rose", 25, 4, true⟩], [{ welcome10 with usedCount := 1 }], [exampleOrder],
   [⟨"u", "SHIPPING"⟩, ⟨"u", "BILLING"⟩]⟩

/-! ### Shared lemmas -/

lemma minimumOk_iff (c : Coupon) (amount : ℚ) :
    minimumOk c amount = true ↔ ∀ m ∈ c.minimumAmount, m ≤ amount := by
  cases hm : c.minimumAmount with
  | none => simp [minimumOk, truthyDec, hm]
  | some m => simp [minimumOk, truthyDec, hm, not_lt]

lemma usageOk_iff (c : Coupon) :
    usageOk c = true ↔ ∀ l ∈ c.usageLimit, l ≠ 0 → c.usedCount < l := by
  cases hl : c.usageLimit with
  | none => simp [usageOk, truthyN, hl]
  | some l =>
    simp only [usageOk, truthyN, hl, Option.getD_some, Bool.not_eq_true',
      Bool.and_eq_false_iff, Option.mem_def, Option.some.injEq, bne_eq_false_iff_eq,
      decide_eq_false_iff_not, not_le]
    constructor
    · rintro (h | h)
      · intro l' hl' _; cases hl'; exact absurd h (by assumption)
      · intro l' hl' _; cases hl'; exact h
    · intro h
      by_cases hl0 : l = 0
      · exact Or.inl hl0
      · exact Or.inr (h l rfl hl0)

lemma sum_map_neg {α : Type} (l : List α) (f : α → ℤ) :
    (l.map fun x => -(f x)).sum = -((l.map f).sum) := by
  induction l with
  | nil => simp
  | cons a t ih => simp [ih]; omega

lemma stockLoop_total : ∀ (deltas : List (String × ℤ)) (ps : List Product),
    (∀ d ∈ deltas, (ps.any fun p => p.id == d.1) = true) →
    stockLoop deltas ps =
      (none, ps.map fun p =>
        { p with stockCount := p.stockCount +
            ((deltas.filter fun d => d.1 == p.id).map Prod.snd).sum }) := by
  intro deltas
  induction deltas with
  | nil => intro ps _; simp [stockLoop]
  | cons d rest ih =>
    intro ps hex
    obtain ⟨pid, dv⟩ := d
    have hany : (ps.any fun p => p.id == pid) = true :=
      hex (pid, dv) (List.mem_cons_self _ _)
    have hid : ∀ q : Product,
        ((if (q.id == pid) = true then { q with stockCount := q.stockCount + dv } else q) : Product).id
          = q.id := by
      intro q; split <;> rfl
    have hrest : ∀ d ∈ rest,
        (((ps.map fun q => if q.id == pid then { q with stockCount := q.stockCount + dv } else q).any
          fun p => p.id == d.1) = true) := by
      intro d hd
      have hm := hex d (List.mem_cons_of_mem _ hd)
      rw [List.any_map]
      simp only [Function.comp_def, hid]
      exact hm
    simp only [stockLoop, updateProductStock, hany, if_pos]
    rw [ih _ hrest]
    rw [List.map_map]
    refine Prod.ext rfl ?_
    simp only []
    refine List.map_congr_left ?_
    intro p _
    simp only [Function.comp]
    by_cases hp : p.id = pid
    · rw [if_pos (by simp [hp])]
      simp [List.filter_cons, hp]
      omega
    · rw [if_neg (by simp [hp])]
      have hsym : (pid == p.id) = false := by simp [Ne.symm hp]
      simp [List.filter_cons, hsym]

lemma stockLoop_decrement (ps : List Product) (items : List ReqItem)
    (hex : ∀ it ∈ items, (ps.any fun p => p.id == it.productId) = true) :
    stockLoop (items.map fun it => (it.productId, -(it.quantity : ℤ))) ps =
      (none, decrementedProducts ps items) := by
  rw [stockLoop_total]
  · unfold decrementedProducts
    refine Prod.ext rfl ?_
    simp only []
    refine List.map_congr_left ?_
    intro p _
    rw [List.filter_map, List.map_map]
    simp only [Function.comp_def]
    congr 1
    rw [sum_map_neg (items.filter fun x => x.productId == p.id)
        (fun it : ReqItem => (it.quantity : ℤ))]
    omega
  · intro d hd
    obtain ⟨it, hit, rfl⟩ := List.mem_map.mp hd
    exact hex it hit

lemma stockLoop_restore (ps : List Product) (items : List OrderItem)
    (hex : ∀ it ∈ items, (ps.any fun p => p.id == it.productId) = true) :
    stockLoop (items.map fun it => (it.productId, (it.quantity : ℤ))) ps =
      (none, restoredProducts ps items) := by
  rw [stockLoop_total]
  · unfold restoredProducts
    refine Prod.ext rfl ?_
    simp only []
    refine List.map_congr_left ?_
    intro p _
    rw [List.filter_map, List.map_map]
    simp only [Function.comp_def]
  · intro d hd
    obtain ⟨it, hit, rfl⟩ := List.mem_map.mp hd
    exact hex it hit

lemma validateItems_ok_forall (s : State) :
    ∀ (items : List ReqItem) (sub : ℚ) (its : List OrderItem),
    validateItems s items = .ok (sub, its) →
    ∀ it ∈ items, ∃ p, s.products.find? (fun q => q.id == it.productId) = some p ∧
      p.inStock = true ∧ (it.quantity : ℤ) ≤ p.stockCount := by
  intro items
  induction items with
  | nil => intro sub its _ it hit; cases hit
  | cons item rest ih =>
    intro sub its hok it hit
    unfold validateItems at hok
    cases hf : s.products.find? (fun q => q.id == item.productId) with
    | none => rw [hf] at hok; exact Except.noConfusion hok
    | some p =>
      rw [hf] at hok
      dsimp only at hok
      by_cases hg : (!p.inStock || decide (p.stockCount < (item.quantity : ℤ))) = true
      · rw [if_pos hg] at hok; exact Except.noConfusion hok
      · rw [if_neg hg] at hok
        simp only [Bool.or_eq_true, Bool.not_eq_true', decide_eq_true_iff, not_or, not_lt,
          Bool.not_eq_false] at hg
        rcases List.mem_cons.mp hit with rfl | hmem
        · exact ⟨p, hf, hg.1, hg.2⟩
        · cases hrest : validateItems s rest with
          | error e => rw [hrest] at hok; exact Except.noConfusion hok
          | ok pr =>
            obtain ⟨sub', its'⟩ := pr
            exact ih sub' its' hrest it hmem

lemma validateItems_ok_subtotal (s : State) :
    ∀ (items : List ReqItem) (sub : ℚ) (its : List OrderItem),
    validateItems s items = .ok (sub, its) →
    sub = (its.map fun i => i.price * (i.quantity : ℚ)).sum := by
  intro items
  induction items with
  | nil =>
    intro sub its hok
    unfold validateItems at hok
    cases hok
    simp
  | cons item rest ih =>
    intro sub its hok
    unfold validateItems at hok
    cases hf : s.products.find? (fun q => q.id == item.productId) with
    | none => rw [hf] at hok; exact Except.noConfusion hok
    | some p =>
      rw [hf] at hok
      dsimp only at hok
      by_cases hg : (!p.inStock || decide (p.stockCount < (item.quantity : ℤ))) = true
      · rw [if_pos hg] at hok; exact Except.noConfusion hok
      · rw [if_neg hg] at hok
        cases hrest : validateItems s rest with
        | error e => rw [hrest] at hok; exact Except.noConfusion hok
        | ok pr =>
          obtain ⟨sub', its'⟩ := pr
          rw [hrest] at hok
          cases hok
          simp [ih sub' its' hrest]

lemma validateItems_hex (s : State) (items : List ReqItem) (sub : ℚ) (its : List OrderItem)
    (hv : validateItems s items = .ok (sub, its)) :
    ∀ it ∈ items, (s.products.any fun p => p.id == it.productId) = true := by
  intro it hit
  obtain ⟨p, hf, _, _⟩ := validateItems_ok_forall s items sub its hv it hit
  have h2 := List.find?_some hf
  exact List.any_eq_true.mpr ⟨p, List.mem_of_find?_eq_some hf, h2⟩

lemma createOrder_error_run (s : State) (now : ℤ) (uid : String) (req : CreateOrderRequest)
    (e : Err) (hv : validateItems (addrState s uid) req.items = .error e) :
    createOrder s now uid req = (.error e, addrState s uid) := by
  unfold createOrder
  unfold addrState at hv ⊢
  dsimp only
  rw [hv]

lemma createOrder_ok_run (s : State) (now : ℤ) (uid : String) (req : CreateOrderRequest)
    (sub : ℚ) (its : List OrderItem)
    (hv : validateItems (addrState s uid) req.items = .ok (sub, its)) :
    createOrder s now uid req =
      (let discount : ℚ :=
        match req.couponCode with
        | none => 0
        | some code =>
          match validateCoupon s now code sub with
          | none => 0
          | some c => discountFor c sub;
      let order : Order :=
        { id := s.orders.length, userId := uid, items := its,
          subtotal := sub, shipping := calculateShipping sub,
          tax := calculateTax (sub + calculateShipping sub),
          discount := discount,
          total := sub + calculateShipping sub + calculateTax (sub + calculateShipping sub) - discount,
          status := .pending, trackingNumber := none, estimatedDelivery := none,
          notes := req.notes };
      match req.couponCode with
      | none =>
        (.ok order,
          { products := decrementedProducts s.products req.items, coupons := s.coupons,
            orders := s.orders ++ [order],
            addresses := s.addresses ++ [⟨uid, "SHIPPING"⟩, ⟨uid, "BILLING"⟩] })
      | some code =>
        if s.coupons.any (fun c => c.code == code) then
          (.ok order,
            { products := decrementedProducts s.products req.items,
              coupons := s.coupons.map fun c =>
                if c.code == code then { c with usedCount := c.usedCount + 1 } else c,
              orders := s.orders ++ [order],
              addresses := s.addresses ++ [⟨uid, "SHIPPING"⟩, ⟨uid, "BILLING"⟩] })
        else
          (.error .recordNotFound,
            { products := decrementedProducts s.products req.items, coupons := s.coupons,
              orders := s.orders ++ [order],
              addresses := s.addresses ++ [⟨uid, "SHIPPING"⟩, ⟨uid, "BILLING"⟩] })) := by
  unfold createOrder
  unfold addrState at hv
  dsimp only
  rw [hv]
  dsimp only
  have hex := validateItems_hex _ _ _ _ hv
  rw [stockLoop_decrement s.products req.items hex]
  cases hcc : req.couponCode with
  | none => rfl
  | some code => rfl

lemma filter_eq_nil_or_singleton {l : List ReqItem}
    (hn : (l.map ReqItem.productId).Nodup) (x : String) :
    l.filter (fun it => it.productId == x) = [] ∨
    ∃ it ∈ l, it.productId = x ∧ l.filter (fun it => it.productId == x) = [it] := by
  induction l with
  | nil => left; rfl
  | cons a t ih =>
    simp only [List.map_cons, List.nodup_cons] at hn
    by_cases ha : a.productId = x
    · right
      refine ⟨a, List.mem_cons_self _ _, ha, ?_⟩
      rw [List.filter_cons_of_pos (by simp [ha])]
      have ht : t.filter (fun it => it.productId == x) = [] := by
        rw [List.filter_eq_nil_iff]
        intro b hb
        simp only [beq_iff_eq]
        intro hbx
        apply hn.1
        rw [ha, ← hbx]
        exact List.mem_map_of_mem ReqItem.productId hb
      rw [ht]
    · rw [List.filter_cons_of_neg (by simp [ha])]
      rcases ih hn.2 with h | ⟨it, hmem, hit, hfil⟩
      · left; exact h
      · right; exact ⟨it, List.mem_cons_of_mem _ hmem, hit, hfil⟩

lemma decremented_nonneg (ps : List Product) (items : List ReqItem)
    (hids : (ps.map Product.id).Nodup)
    (hitems : (items.map ReqItem.productId).Nodup)
    (hnn : ∀ p ∈ ps, 0 ≤ p.stockCount)
    (hok : ∀ it ∈ items, ∃ p, ps.find? (fun q => q.id == it.productId) = some p ∧
      p.inStock = true ∧ (it.quantity : ℤ) ≤ p.stockCount) :
    ∀ p ∈ decrementedProducts ps items, 0 ≤ p.stockCount := by
  intro p' hp'
  obtain ⟨p, hp, rfl⟩ := List.mem_map.mp hp'
  simp only []
  rcases filter_eq_nil_or_singleton hitems p.id with hfil | ⟨it, hmem, hit, hfil⟩
  · rw [hfil]
    simpa using hnn p hp
  · rw [hfil]
    obtain ⟨q, hfq, _, hqle⟩ := hok it hmem
    have hqm := List.mem_of_find?_eq_some hfq
    have hqid := List.find?_some hfq
    simp only [beq_iff_eq] at hqid
    have hqp : q = p := List.inj_on_of_nodup_map hids hqm hp (by rw [hqid, hit])
    rw [hqp] at hqle
    simp only [List.map_cons, List.map_nil, List.sum_cons, List.sum_nil]
    omega

lemma find?_order_eq (s : State) (uid : String) (oid : ℕ)
    (hords : (s.orders.map Order.id).Nodup)
    (o : Order) (ho : o ∈ s.orders) (h1 : o.id = oid) (h2 : o.userId = uid) :
    s.orders.find? (fun x => x.id == oid && x.userId == uid) = some o := by
  cases hf : s.orders.find? (fun x => x.id == oid && x.userId == uid) with
  | none =>
    exfalso
    have := List.find?_eq_none.mp hf o ho
    simp [h1, h2] at this
  | some q =>
    have hqm := List.mem_of_find?_eq_some hf
    have hqp := List.find?_some hf
    simp only [Bool.and_eq_true, beq_iff_eq] at hqp
    have : q = o := List.inj_on_of_nodup_map hords hqm ho (by rw [hqp.1, h1])
    rw [this]

/-! ### Claim theorems -/

/-- C5: validateCoupon returns the coupon exactly when it exists under the
uppercased code, is active, the current time lies inside the inclusive
validity window, the order amount meets the minimum whenever one is present
(the Decimal column is truthy even at 0), and the used count is below the
usage limit when a nonzero one is set (the Int column is falsy at 0); any
failing check yields `none`, not an error. -/
theorem c5_validateCoupon_iff (s : State) (now : ℤ) (code : String) (amount : ℚ) (c : Coupon) :
    validateCoupon s now code amount = some c ↔
      findCoupon s (upper code) = some c ∧ couponApplicable now amount c := by
  unfold validateCoupon
  cases h : findCoupon s (upper code) with
  | none => simp [couponApplicable]
  | some c' =>
    dsimp only
    constructor
    · intro hv
      split_ifs at hv with h1 h2 h3 h4
      have hcc : c' = c := by injection hv
      subst hcc
      simp only [Bool.not_eq_true', Bool.not_eq_false] at h1 h3 h4
      simp only [Bool.or_eq_true, decide_eq_true_iff, not_or, not_lt] at h2
      exact ⟨rfl, h1, h2.1, h2.2, (minimumOk_iff c' amount).mp h3, (usageOk_iff c').mp h4⟩
    · rintro ⟨hfind, hA, hfrom, huntil, hmin, huse⟩
      have hcc : c' = c := by injection hfind
      subst hcc
      rw [if_neg (by simp [hA]), if_neg (by simp; omega),
          if_neg (by simp [(minimumOk_iff c' amount).mpr hmin]),
          if_neg (by simp [(usageOk_iff c').mpr huse])]

/-- C8: a validated percentage coupon discounts `subtotal * value / 100`,
Math.min-capped at maximumDiscount whenever that Decimal column is present
(so a discount exceeding a set cap is reduced to it); with no cap present
the discount is uncapped; a fixed coupon discounts its value with no cap,
and a concrete order exists whose fixed-coupon discount drives the total
below zero. -/
theorem c8_discount_rule :
    (∀ (c : Coupon) (sub m : ℚ), c.ctype = .percentage → c.maximumDiscount = some m →
      discountFor c sub = min (sub * c.value / 100) m) ∧
    (∀ (c : Coupon) (sub : ℚ), c.ctype = .percentage → c.maximumDiscount = none →
      discountFor c sub = sub * c.value / 100) ∧
    (∀ (c : Coupon) (sub : ℚ), c.ctype = .fixed → discountFor c sub = c.value) ∧
    (∃ o, (createOrder ⟨[lilyP], [big100], [], []⟩ 50 "u" ⟨[⟨"p1", 1⟩], none, some "BIG100"⟩).1
        = .ok o ∧ o.total < 0) := by
  refine ⟨?_, ?_, ?_, ?_⟩
  · intro c sub m ht hm; simp [discountFor, ht, hm, truthyDec]
  · intro c sub ht hm; simp [discountFor, ht, hm, truthyDec]
  · intro c sub ht; simp [discountFor, ht]
  · refine ⟨⟨0, "u", [⟨"p1", 1, 10⟩], 10, 999/100, 160/100, 100,
      10 + 999/100 + 160/100 - 100, .pending, none, none, none⟩, ?_, by norm_num⟩
    simp [createOrder, validateItems, lilyP, big100, calculateShipping,
      validateCoupon, findCoupon, minimumOk, usageOk, truthyDec, truthyN, upper, upperChar,
      discountFor, stockLoop, updateProductStock, calculateTax, jsRound]
    norm_num

/-- C8 witness: the uncapped percentage rule at the WELCOME10 example
coupon, the capped rule at a coupon with a present zero cap, and the fixed
rule at the BIG100 coupon, instantiated concretely. -/
theorem c8_discount_rule_witness :
    discountFor welcome10 25 = 5/2 ∧
    discountFor zeroC 40 = min (40 * zeroC.value / 100) 0 ∧
    discountFor big100 7 = 100 := by
  refine ⟨?_, ?_, ?_⟩
  · have h := c8_discount_rule.2.1 welcome10 25 rfl rfl
    rw [h]; norm_num [welcome10]
  · exact c8_discount_rule.1 zeroC 40 0 rfl rfl
  · exact c8_discount_rule.2.2.1 big100 7 rfl

/-- C9: updateOrder never touches any product's stockCount nor any coupon's
usedCount, whatever patch is applied and whether or not the order exists. -/
theorem c9_updateOrder_frame (s : State) (orderId : ℕ) (d : UpdateOrderRequest) :
    (updateOrder s orderId d).2.products = s.products ∧
    (updateOrder s orderId d).2.coupons = s.coupons := by
  unfold updateOrder
  cases s.orders.find? (fun o => o.id == orderId) <;> simp

/-- C10 (amended): only the Int column usageLimit is tested by numeric
truthiness — a zero usage limit never blocks, regardless of usedCount.  The
Decimal columns are truthy whenever present, so their checks test presence:
a zero minimumAmount still enforces amount ≥ 0 (the guard passes exactly
for non-negative amounts), and a percentage coupon with a present zero
maximumDiscount has its discount clamped to min(computed, 0), not left
uncapped. -/
theorem c10_zero_field_semantics :
    (∀ c : Coupon, c.usageLimit = some 0 → usageOk c = true) ∧
    (∀ (c : Coupon) (amount : ℚ), c.minimumAmount = some 0 →
      (minimumOk c amount = true ↔ 0 ≤ amount)) ∧
    (∀ (c : Coupon) (sub : ℚ), c.ctype = .percentage → c.maximumDiscount = some 0 →
      discountFor c sub = min (sub * c.value / 100) 0) := by
  refine ⟨?_, ?_, ?_⟩
  · intro c h; simp [usageOk, truthyN, h]
  · intro c amount h; simp [minimumOk, truthyDec, h, not_lt]
  · intro c sub ht h
    simp [discountFor, ht, truthyDec, h]

/-- C10 counterexample: at the coupon whose optional fields are present but
zero, the program does not treat zero as absent: validateCoupon rejects a
negative amount although the minimum is zero (the Decimal guard is truthy
and enforces amount ≥ 0), and the present zero cap clamps a 4.00 percentage
discount to 0 instead of leaving it uncapped. -/
theorem c10_counterexample :
    validateCoupon ⟨[], [zeroC], [], []⟩ 50 "Z" (-5) = none ∧
    minimumOk zeroC (-5) = false ∧
    discountFor zeroC 40 = 0 ∧
    (40 : ℚ) * zeroC.value / 100 = 4 := by
  refine ⟨?_, ?_, ?_, ?_⟩
  · simp [validateCoupon, findCoupon, upper, upperChar, zeroC, minimumOk, usageOk,
      truthyDec, truthyN]
    try norm_num
  · simp [minimumOk, zeroC, truthyDec]
    try norm_num
  · simp [discountFor, zeroC, truthyDec]
    try norm_num
  · norm_num [zeroC]

/-- C10 witness: the amended rules instantiated at that same coupon: the
zero usage limit never blocks, the zero minimum admits a non-negative
amount, and the zero cap yields min(4, 0). -/
theorem c10_zero_field_semantics_witness :
    usageOk zeroC = true ∧ minimumOk zeroC 7 = true ∧
    discountFor zeroC 40 = min (40 * zeroC.value / 100) 0 := by
  refine ⟨c10_zero_field_semantics.1 zeroC rfl, ?_,
    c10_zero_field_semantics.2.2 zeroC 40 rfl rfl⟩
  exact (c10_zero_field_semantics.2.1 zeroC 7 rfl).mpr (by norm_num)

/-- C1 (amended): the stock pre-check is per line item, not aggregated per
product: a successful createOrder guarantees that each line item's quantity
individually was within its product's stock, and when the line items
reference pairwise-distinct products every stockCount stays non-negative. -/
theorem c1_per_item_check_and_nonneg (s : State) (now : ℤ) (uid : String)
    (req : CreateOrderRequest) :
    (∀ (o : Order) (s2 : State), createOrder s now uid req = (.ok o, s2) →
      ∀ it ∈ req.items, ∃ p, s.products.find? (fun q => q.id == it.productId) = some p ∧
        p.inStock = true ∧ (it.quantity : ℤ) ≤ p.stockCount) ∧
    ((s.products.map Product.id).Nodup → (req.items.map ReqItem.productId).Nodup →
      (∀ p ∈ s.products, 0 ≤ p.stockCount) →
      ∀ p ∈ (createOrder s now uid req).2.products, 0 ≤ p.stockCount) := by
  constructor
  · intro o s2 h it hit
    cases hv : validateItems (addrState s uid) req.items with
    | error e =>
      rw [createOrder_error_run s now uid req e hv] at h
      simp at h
    | ok pr =>
      obtain ⟨sub, its⟩ := pr
      exact validateItems_ok_forall (addrState s uid) req.items sub its hv it hit
  · intro hids hitems hnn
    cases hv : validateItems (addrState s uid) req.items with
    | error e =>
      rw [createOrder_error_run s now uid req e hv]
      intro p hp
      exact hnn p hp
    | ok pr =>
      obtain ⟨sub, its⟩ := pr
      rw [createOrder_ok_run s now uid req sub its hv]
      dsimp only
      have hforall := validateItems_ok_forall (addrState s uid) req.items sub its hv
      have hgoal := decremented_nonneg s.products req.items hids hitems hnn hforall
      cases req.couponCode with
      | none => exact hgoal
      | some code =>
        dsimp only
        by_cases hany : (s.coupons.any fun c => c.code == code) = true
        · rw [if_pos hany]; exact hgoal
        · rw [if_neg hany]; exact hgoal

/-- C1 counterexample: product p1 has 3 units; two line items of 2 each pass
the per-item check although together they demand 4, the order is created,
and the decrements drive the stockCount to -1. -/
theorem c1_counterexample :
    (createOrder ⟨[tulipP], [], [], []⟩ 0 "u" ⟨[⟨"p1", 2⟩, ⟨"p1", 2⟩], none, none⟩).1
      = .ok ⟨0, "u", [⟨"p1", 2, 1⟩, ⟨"p1", 2, 1⟩], 4, 999/100, 112/100, 0, 1511/100,
             .pending, none, none, none⟩ ∧
    (createOrder ⟨[tulipP], [], [], []⟩ 0 "u" ⟨[⟨"p1", 2⟩, ⟨"p1", 2⟩], none, none⟩).2.products
      = [⟨"p1", "Tulip", 1, -1, true⟩] := by
  constructor <;>
  · simp [createOrder, validateItems, tulipP, calculateShipping, stockLoop,
      updateProductStock, calculateTax, jsRound]
    try norm_num

/-- C1 witness: the amended theorem applied to a single-line-item purchase of
two tulips: the line item's product was found with sufficient stock, and all
stock counts remain non-negative afterwards. -/
theorem c1_witness :
    ((∃ p, [tulipP].find? (fun q => q.id == "p1") = some p ∧
        p.inStock = true ∧ ((2 : ℕ) : ℤ) ≤ p.stockCount) ∧
     ∀ p ∈ (createOrder ⟨[tulipP], [], [], []⟩ 0 "u" ⟨[⟨"p1", 2⟩], none, none⟩).2.products,
       0 ≤ p.stockCount) := by
  constructor
  · have h := (c1_per_item_check_and_nonneg ⟨[tulipP], [], [], []⟩ 0 "u"
      ⟨[⟨"p1", 2⟩], none, none⟩).1 c1wOrder c1wState ?_ ⟨"p1", 2⟩ (List.mem_cons_self _ _)
    · exact h
    · simp [createOrder, validateItems, tulipP, calculateShipping, stockLoop,
        updateProductStock, calculateTax, jsRound, c1wOrder, c1wState]
      norm_num
  · exact (c1_per_item_check_and_nonneg ⟨[tulipP], [], [], []⟩ 0 "u"
      ⟨[⟨"p1", 2⟩], none, none⟩).2 (by decide) (by decide) (by decide)

/-- C2 (amended): when a product lookup or stock check fails, no order,
stock, or coupon write has happened yet — but the two address snapshots have
already been persisted before validation. -/
theorem c2_validation_failure_frame (s : State) (now : ℤ) (uid : String)
    (req : CreateOrderRequest) (e : Err)
    (h : (createOrder s now uid req).1 = .error e)
    (he : (∃ pid, e = .productNotFound pid) ∨ (∃ n, e = .insufficientStock n)) :
    (createOrder s now uid req).2.orders = s.orders ∧
    (createOrder s now uid req).2.products = s.products ∧
    (createOrder s now uid req).2.coupons = s.coupons ∧
    (createOrder s now uid req).2.addresses
      = s.addresses ++ [⟨uid, "SHIPPING"⟩, ⟨uid, "BILLING"⟩] := by
  cases hv : validateItems (addrState s uid) req.items with
  | error e' =>
    rw [createOrder_error_run s now uid req e' hv]
    exact ⟨rfl, rfl, rfl, rfl⟩
  | ok pr =>
    obtain ⟨sub, its⟩ := pr
    rw [createOrder_ok_run s now uid req sub its hv] at h
    dsimp only at h
    exfalso
    cases hcc : req.couponCode with
    | none => rw [hcc] at h; simp at h
    | some code =>
      rw [hcc] at h
      dsimp only at h
      by_cases hany : (s.coupons.any fun c => c.code == code) = true
      · rw [if_pos hany] at h; simp at h
      · rw [if_neg hany] at h
        have he' : e = .recordNotFound := by
          have := h.symm
          injection this
        rcases he with ⟨pid, hpid⟩ | ⟨n, hn⟩
        · rw [he'] at hpid; exact Err.noConfusion hpid
        · rw [he'] at hn; exact Err.noConfusion hn

/-- C2 counterexample: a request naming a missing product aborts with
NotFound, yet the two address snapshots have already been written at that
point, contradicting the claim that no write at all has occurred. -/
theorem c2_counterexample :
    (createOrder ⟨[], [], [], []⟩ 0 "u" ⟨[⟨"ghost", 1⟩], none, none⟩).1
        = .error (.productNotFound "ghost") ∧
    (createOrder ⟨[], [], [], []⟩ 0 "u" ⟨[⟨"ghost", 1⟩], none, none⟩).2.addresses
        = [⟨"u", "SHIPPING"⟩, ⟨"u", "BILLING"⟩] := by
  constructor <;> rfl

/-- C2 witness: the amended frame theorem applied to the missing-product
request: orders, products, and coupons are untouched while the two address
rows exist. -/
theorem c2_validation_failure_frame_witness :
    (createOrder ⟨[], [], [], []⟩ 0 "u" ⟨[⟨"ghost", 1⟩], none, none⟩).2.orders = [] ∧
    (createOrder ⟨[], [], [], []⟩ 0 "u" ⟨[⟨"ghost", 1⟩], none, none⟩).2.products = [] ∧
    (createOrder ⟨[], [], [], []⟩ 0 "u" ⟨[⟨"ghost", 1⟩], none, none⟩).2.coupons = [] ∧
    (createOrder ⟨[], [], [], []⟩ 0 "u" ⟨[⟨"ghost", 1⟩], none, none⟩).2.addresses
      = [⟨"u", "SHIPPING"⟩, ⟨"u", "BILLING"⟩] := by
  have h := c2_validation_failure_frame ⟨[], [], [], []⟩ 0 "u" ⟨[⟨"ghost", 1⟩], none, none⟩
    (.productNotFound "ghost") rfl (Or.inl ⟨"ghost", rfl⟩)
  exact ⟨h.1, h.2.1, h.2.2.1, h.2.2.2⟩

/-- C3: contrary to the claim, a successful order whose named coupon was
rejected by the validator (SAVE20 requires a 100 minimum, the subtotal is
10, so the discount is 0) still increments that coupon's usedCount, because
the update is guarded by `if (couponCode)` rather than by applicability;
cancelOrder, in contrast, indeed never touches any coupon. -/
theorem c3_usedCount_increment :
    ((createOrder ⟨[lilyP], [save20], [], []⟩ 50 "u" ⟨[⟨"p1", 1⟩], none, some "SAVE20"⟩).1
        = .ok ⟨0, "u", [⟨"p1", 1, 10⟩], 10, 999/100, 160/100, 0, 2159/100,
               .pending, none, none, none⟩) ∧
    ((createOrder ⟨[lilyP], [save20], [], []⟩ 50 "u" ⟨[⟨"p1", 1⟩], none, some "SAVE20"⟩).2.coupons
        = [{ save20 with usedCount := 1 }]) ∧
    (∀ (s : State) (uid : String) (oid : ℕ), (cancelOrder s uid oid).2.coupons = s.coupons) := by
  refine ⟨?_, ?_, ?_⟩
  · simp [createOrder, validateItems, lilyP, save20, calculateShipping, validateCoupon,
      findCoupon, minimumOk, usageOk, truthyDec, truthyN, upper, upperChar, discountFor,
      stockLoop, updateProductStock, calculateTax, jsRound]
    try norm_num
  · simp [createOrder, validateItems, lilyP, save20, calculateShipping, validateCoupon,
      findCoupon, minimumOk, usageOk, truthyDec, truthyN, upper, upperChar, discountFor,
      stockLoop, updateProductStock, calculateTax, jsRound]
    try norm_num
  · intro s uid oid
    unfold cancelOrder
    cases s.orders.find? (fun o => o.id == oid && o.userId == uid) with
    | none => rfl
    | some o =>
      dsimp only
      split_ifs with h1 h2
      · rfl
      · rfl
      · cases hsl : stockLoop (o.items.map fun it => (it.productId, (it.quantity : ℤ))) s.products with
        | mk oe ps => cases oe <;> rfl

/-- C4: the subtotal of a validated item list is the sum of frozen unit
price times quantity; shipping is tiered at 50 and 25; tax is 8 percent of
subtotal plus shipping, rounded half-up to two decimals; every successful
order satisfies total = subtotal + shipping + tax - discount; and the
spec's worked example prices to discount 2.50, shipping 5.99, tax 2.48,
total 30.97. -/
theorem c4_pricing :
    (∀ (s : State) (items : List ReqItem) (sub : ℚ) (its : List OrderItem),
      validateItems s items = .ok (sub, its) →
      sub = (its.map fun i => i.price * (i.quantity : ℚ)).sum) ∧
    (∀ a : ℚ, 50 ≤ a → calculateShipping a = 0) ∧
    (∀ a : ℚ, 25 ≤ a → a < 50 → calculateShipping a = 599/100) ∧
    (∀ a : ℚ, a < 25 → calculateShipping a = 999/100) ∧
    (∀ a : ℚ, calculateTax a = roundHalfUp2 (a * (8/100))) ∧
    (∀ (s : State) (now : ℤ) (uid : String) (req : CreateOrderRequest) (o : Order) (s2 : State),
      createOrder s now uid req = (.ok o, s2) →
      o.shipping = calculateShipping o.subtotal ∧
      o.tax = calculateTax (o.subtotal + o.shipping) ∧
      o.total = o.subtotal + o.shipping + o.tax - o.discount) ∧
    (createOrder ⟨[roseP], [welcome10], [], []⟩ 50 "u" ⟨[⟨"p1", 1⟩], none, some "WELCOME10"⟩
      = (.ok exampleOrder, exampleState)) := by
  refine ⟨validateItems_ok_subtotal, ?_, ?_, ?_, ?_, ?_, ?_⟩
  · intro a h; unfold calculateShipping; rw [if_pos (by exact h)]
  · intro a h1 h2; unfold calculateShipping; rw [if_neg (by linarith), if_pos (by exact h1)]
  · intro a h; unfold calculateShipping; rw [if_neg (by linarith), if_neg (by linarith)]
  · intro a; unfold calculateTax roundHalfUp2 jsRound; rw [mul_assoc]
  · intro s now uid req o s2 h
    cases hv : validateItems (addrState s uid) req.items with
    | error e =>
      rw [createOrder_error_run s now uid req e hv] at h
      simp at h
    | ok pr =>
      obtain ⟨sub, its⟩ := pr
      rw [createOrder_ok_run s now uid req sub its hv] at h
      dsimp only at h
      cases hcc : req.couponCode with
      | none =>
        rw [hcc] at h
        dsimp only at h
        rw [Prod.mk.injEq] at h
        obtain ⟨hok, -⟩ := h
        injection hok with ho
        subst ho
        exact ⟨rfl, rfl, rfl⟩
      | some code =>
        rw [hcc] at h
        dsimp only at h
        by_cases hany : (s.coupons.any fun c => c.code == code) = true
        · rw [if_pos hany] at h
          rw [Prod.mk.injEq] at h
          obtain ⟨hok, -⟩ := h
          injection hok with ho
          subst ho
          exact ⟨rfl, rfl, rfl⟩
        · rw [if_neg hany] at h
          rw [Prod.mk.injEq] at h
          obtain ⟨hok, -⟩ := h
          exact Except.noConfusion hok
  · simp [createOrder, validateItems, roseP, welcome10, exampleOrder, exampleState,
      calculateShipping, validateCoupon, findCoupon, minimumOk, usageOk, truthyDec, truthyN,
      upper, upperChar, discountFor, stockLoop, updateProductStock, calculateTax, jsRound]
    try norm_num

/-- C4 witness: the shipping tiers, the tax formula, the subtotal rule and
the total identity, each instantiated at the worked example's numbers. -/
theorem c4_pricing_witness :
    calculateShipping 50 = 0 ∧ calculateShipping 25 = 599/100 ∧
    calculateShipping 10 = 999/100 ∧ calculateTax 50 = roundHalfUp2 (50 * (8/100)) ∧
    (25 : ℚ) = (([⟨"p1", 1, 25⟩] : List OrderItem).map fun i => i.price * (i.quantity : ℚ)).sum ∧
    (exampleOrder.shipping = calculateShipping exampleOrder.subtotal ∧
     exampleOrder.tax = calculateTax (exampleOrder.subtotal + exampleOrder.shipping) ∧
     exampleOrder.total
       = exampleOrder.subtotal + exampleOrder.shipping + exampleOrder.tax - exampleOrder.discount) := by
  refine ⟨c4_pricing.2.1 50 (by norm_num), c4_pricing.2.2.1 25 (by norm_num) (by norm_num),
    c4_pricing.2.2.2.1 10 (by norm_num), c4_pricing.2.2.2.2.1 50, ?_, ?_⟩
  · refine c4_pricing.1 ⟨[roseP], [], [], []⟩ [⟨"p1", 1⟩] 25 [⟨"p1", 1, 25⟩] ?_
    simp [validateItems, roseP]
    try norm_num
  · exact c4_pricing.2.2.2.2.2.1 ⟨[roseP], [welcome10], [], []⟩ 50 "u"
      ⟨[⟨"p1", 1⟩], none, some "WELCOME10"⟩ exampleOrder exampleState
      c4_pricing.2.2.2.2.2.2

/-- C6: naming a nonexistent coupon code does turn createOrder into an
error, contrary to the claim: the coupon-usage update runs whenever a code
was given at all and fails on the missing row, after the order has already
been persisted and the stock decremented. -/
theorem c6_invalid_coupon_error :
    (createOrder ⟨[lilyP], [], [], []⟩ 0 "u" ⟨[⟨"p1", 1⟩], none, some "NOPE"⟩).1
        = .error .recordNotFound ∧
    (createOrder ⟨[lilyP], [], [], []⟩ 0 "u" ⟨[⟨"p1", 1⟩], none, some "NOPE"⟩).2.orders
        = [⟨0, "u", [⟨"p1", 1, 10⟩], 10, 999/100, 160/100, 0, 2159/100,
            .pending, none, none, none⟩] ∧
    (createOrder ⟨[lilyP], [], [], []⟩ 0 "u" ⟨[⟨"p1", 1⟩], none, some "NOPE"⟩).2.products
        = [⟨"p1", "Lily", 10, 4, true⟩] := by
  refine ⟨?_, ?_, ?_⟩ <;>
  · simp [createOrder, validateItems, lilyP, calculateShipping, validateCoupon,
      findCoupon, minimumOk, usageOk, truthyDec, truthyN, upper, upperChar, discountFor,
      stockLoop, updateProductStock, calculateTax, jsRound]
    try norm_num

/-- C7: cancelOrder succeeds exactly when an order with that id belongs to
that user and is neither Cancelled nor Delivered; on success it restores
every item's quantity to its product's stockCount and sets the status to
Cancelled, and each failure mode returns its error with the store
untouched. -/
theorem c7_cancelOrder (s : State) (uid : String) (oid : ℕ)
    (hords : (s.orders.map Order.id).Nodup)
    (hwf : ∀ o ∈ s.orders, ∀ it ∈ o.items, (s.products.any fun p => p.id == it.productId) = true) :
    ((∃ o', (cancelOrder s uid oid).1 = .ok o') ↔
      ∃ o ∈ s.orders, o.id = oid ∧ o.userId = uid ∧
        o.status ≠ .cancelled ∧ o.status ≠ .delivered) ∧
    (∀ o ∈ s.orders, o.id = oid → o.userId = uid →
      o.status ≠ .cancelled → o.status ≠ .delivered →
      cancelOrder s uid oid =
        (.ok { o with status := .cancelled },
          { s with products := restoredProducts s.products o.items,
                   orders := s.orders.map fun x =>
                     if x.id == oid then { x with status := .cancelled } else x })) ∧
    ((∀ o ∈ s.orders, ¬(o.id = oid ∧ o.userId = uid)) →
      cancelOrder s uid oid = (.error .orderNotFound, s)) ∧
    (∀ o ∈ s.orders, o.id = oid → o.userId = uid → o.status = .cancelled →
      cancelOrder s uid oid = (.error .alreadyCancelled, s)) ∧
    (∀ o ∈ s.orders, o.id = oid → o.userId = uid → o.status = .delivered →
      cancelOrder s uid oid = (.error .cannotCancelDelivered, s)) := by
  have hsucc : ∀ o ∈ s.orders, o.id = oid → o.userId = uid →
      o.status ≠ .cancelled → o.status ≠ .delivered →
      cancelOrder s uid oid =
        (.ok { o with status := .cancelled },
          { s with products := restoredProducts s.products o.items,
                   orders := s.orders.map fun x =>
                     if x.id == oid then { x with status := .cancelled } else x }) := by
    intro o ho h1 h2 h3 h4
    unfold cancelOrder
    rw [find?_order_eq s uid oid hords o ho h1 h2]
    dsimp only
    rw [if_neg h3, if_neg h4]
    rw [stockLoop_restore s.products o.items (hwf o ho)]
  refine ⟨?_, hsucc, ?_, ?_, ?_⟩
  · constructor
    · rintro ⟨o', ho'⟩
      unfold cancelOrder at ho'
      cases hf : s.orders.find? (fun x => x.id == oid && x.userId == uid) with
      | none =>
        rw [hf] at ho'
        exact Except.noConfusion ho'
      | some o =>
        rw [hf] at ho'
        dsimp only at ho'
        have hom := List.mem_of_find?_eq_some hf
        have hop := List.find?_some hf
        simp only [Bool.and_eq_true, beq_iff_eq] at hop
        by_cases h3 : o.status = .cancelled
        · rw [if_pos h3] at ho'; exact absurd ho' (by simp)
        · rw [if_neg h3] at ho'
          by_cases h4 : o.status = .delivered
          · rw [if_pos h4] at ho'; exact absurd ho' (by simp)
          · exact ⟨o, hom, hop.1, hop.2, h3, h4⟩
    · rintro ⟨o, ho, h1, h2, h3, h4⟩
      rw [hsucc o ho h1 h2 h3 h4]
      exact ⟨_, rfl⟩
  · intro hnone
    unfold cancelOrder
    rw [List.find?_eq_none.mpr ?_]
    intro x hx
    simp only [Bool.and_eq_true, beq_iff_eq]
    rintro ⟨hxid, hxu⟩
    exact hnone x hx ⟨hxid, hxu⟩
  · intro o ho h1 h2 h3
    unfold cancelOrder
    rw [find?_order_eq s uid oid hords o ho h1 h2]
    dsimp only
    rw [if_pos h3]
  · intro o ho h1 h2 h3
    unfold cancelOrder
    rw [find?_order_eq s uid oid hords o ho h1 h2]
    dsimp only
    rw [if_neg (by simp [h3]), if_pos h3]

/-- C7 witness: the success equation applied to a store with one pending
two-lily order: its cancellation restores the stock and flips the status. -/
theorem c7_cancelOrder_witness :
    cancelOrder c7State "u" 5 =
      (.ok { c7Order with status := .cancelled },
        { c7State with products := restoredProducts c7State.products c7Order.items,
                       orders := c7State.orders.map fun x =>
                         if x.id == 5 then { x with status := .cancelled } else x }) :=
  (c7_cancelOrder c7State "u" 5 (by decide) (by decide)).2.1 c7Order
    (List.mem_cons_self _ _) rfl rfl (by decide) (by decide)

end FlowerHub
